import Mathlib

/-!
Verification development for the bloomd Python client (pybloomd.py).

The library is shallowly embedded: Python exceptions become an inductive
error type and fallible code returns Except; network nondeterminism is
supplied through explicit oracles (lists of response lines for reads, lists
of attempt outcomes for the retrying send paths).  The file is Python 2
faithful: names that are unbound at runtime (for example the iterator
helper used by the pool disconnect method) evaluate to NameError.
-/

set_option autoImplicit false

namespace Pybloomd

/-- Python exception values the modeled code can raise.  The constructor
blocked stands for a read on a connection that has no further data: the
real call would block until the socket timeout. -/
inductive PyErr where
  | bloomdError (msg : String)
  | valueError (msg : String)
  | envError (msg : String)
  | socketError (errnoVal : Nat)
  | nameError (missing : String)
  | attributeError (missing : String)
  | keyError (key : String)
  | indexError
  | exception (msg : String)
  | blocked
  deriving DecidableEq, Repr

/-- Equality on Except values is decidable when it is on both components;
used to evaluate the models on concrete inputs. -/
instance {ε α : Type} [DecidableEq ε] [DecidableEq α] : DecidableEq (Except ε α) := fun x y =>
  match x, y with
  | .ok a, .ok b =>
    if h : a = b then isTrue (by rw [h])
    else isFalse (fun hc => h (Except.ok.inj hc))
  | .error a, .error b =>
    if h : a = b then isTrue (by rw [h])
    else isFalse (fun hc => h (Except.error.inj hc))
  | .ok _, .error _ => isFalse (fun hc => Except.noConfusion hc)
  | .error _, .ok _ => isFalse (fun hc => Except.noConfusion hc)

/-- The space character, used by the Python string splitting helpers. -/
def spaceChar : Char := Char.ofNat 32

/-- Helper for splitOnce, working over the character list of the string. -/
def splitOnceAux : List Char → Option (List Char × List Char)
  | [] => none
  | c :: rest =>
    if c = spaceChar then some ([], rest)
    else
      match splitOnceAux rest with
      | none => none
      | some (a, b) => some (c :: a, b)

/-- Python s.split(" ", 1) restricted to the case where a split happens:
returns the part before the first space and the remainder.  Returns none
when the string has no space (Python would return a one element list). -/
def splitOnce (s : String) : Option (String × String) :=
  match splitOnceAux s.data with
  | none => none
  | some (a, b) => some (⟨a⟩, ⟨b⟩)

/-- Helper for splitSpace: accumulates the current piece in reverse. -/
def splitSpaceAux : List Char → List Char → List String
  | acc, [] => [⟨acc.reverse⟩]
  | acc, c :: rest =>
    if c = spaceChar then (⟨acc.reverse⟩ : String) :: splitSpaceAux [] rest
    else splitSpaceAux (c :: acc) rest

/-- Python s.split(" "): splits on every single space, keeping empty pieces. -/
def splitSpace (s : String) : List String :=
  splitSpaceAux [] s.data

/-- Boolean list prefix test over characters. -/
def charsPrefixOf : List Char → List Char → Bool
  | [], _ => true
  | _ :: _, [] => false
  | a :: as, b :: bs => a == b && charsPrefixOf as bs

/-- Python s.startswith(p). -/
def strStartsWith (s p : String) : Bool :=
  charsPrefixOf p.data s.data

/-- Decimal digit to character. -/
def digitChar (d : Nat) : Char := Char.ofNat (48 + d)

/-- Fuel driven decimal printer over characters (fuel bounds the digit
count; it is always called with enough fuel). -/
def natToCharsAux : Nat → Nat → List Char → List Char
  | 0, _, acc => acc
  | fuel + 1, n, acc =>
    if n < 10 then digitChar n :: acc
    else natToCharsAux fuel (n / 10) (digitChar (n % 10) :: acc)

/-- Python "%d" % n for a natural number. -/
def natToString (n : Nat) : String :=
  ⟨natToCharsAux (n + 1) n []⟩

/-- Python "%f" % p.  Floating point is out of scope, so the probability
argument is embedded as an exact number of millionths; %f always renders
six decimal places. -/
def formatF6 (micro : Nat) : String :=
  let fracChars := natToCharsAux 8 (1000000 + micro % 1000000) []
  ⟨natToCharsAux (micro / 1000000 + 1) (micro / 1000000) [] ++ (Char.ofNat 46 :: fracChars.tail)⟩

/-! ## BloomdConnection: send retry policy (pybloomd.py lines 58-125)

The socket layer is abstracted by an oracle: one SendOutcome per sendall
attempt.  A transient errno makes the code tear the socket down and build
a new one (we count these re-establishments); any other errno is re-raised
at once; exhausting the attempt budget raises EnvironmentError. -/

/-- Outcome of one sendall attempt supplied by the environment: either the
bytes were written, or a socket.error with the given errno was raised. -/
inductive SendOutcome where
  | ok
  | err (errnoVal : Nat)
  deriving DecidableEq, Repr

/-- The transient errno set of pybloomd.py line 70: ECONNRESET (104),
ECONNREFUSED (111), EAGAIN (11), EHOSTUNREACH (113), EPIPE (32). -/
def isTransient (e : Nat) : Bool :=
  decide (e = 104 ∨ e = 111 ∨ e = 11 ∨ e = 113 ∨ e = 32)

/-- An outcome that takes the retry branch of the send loop. -/
def isTransientOutcome : SendOutcome → Bool
  | .ok => true && false
  | .err e => isTransient e

/-- The retry loop body of BloomdConnection.send, one list entry per
remaining attempt.  Returns the result together with the number of socket
re-establishments performed. -/
def sendLoop : List SendOutcome → Nat → (Except PyErr Unit) × Nat
  | [], reconns => (.error (.envError "Cannot contact bloomd server!"), reconns)
  | o :: rest, reconns =>
    match o with
    | .ok => (.ok (), reconns)
    | .err e =>
      if isTransient e then sendLoop rest (reconns + 1)
      else (.error (.socketError e), reconns)

/-- BloomdConnection.send: runs the loop for at most attempts tries. -/
def send (attempts : Nat) (outcomes : List SendOutcome) : (Except PyErr Unit) × Nat :=
  sendLoop (outcomes.take attempts) 0

/-- One attempt of send_and_receive as seen by the environment: the
outcomes feeding the inner send call, and the result of the following
readline (a line, or a socket.error errno). -/
structure SRAttempt where
  sendOutcomes : List SendOutcome
  readResult : Except Nat String
  deriving DecidableEq, Repr

/-- An attempt whose send succeeds and whose read raises a transient
socket error, so that send_and_receive rebuilds the socket and retries. -/
def isSRTransient (attempts : Nat) (t : SRAttempt) : Bool :=
  (match (send attempts t.sendOutcomes).1 with
    | .ok _ => true
    | .error _ => false) &&
  (match t.readResult with
    | .error e => isTransient e
    | .ok _ => false)

/-- The retry loop of BloomdConnection.send_and_receive.  An error raised
by the inner send is either EnvironmentError (not a socket.error, so it
propagates) or a fatal socket.error (caught, classified fatal, re-raised):
both propagate unchanged.  A transient error from the read rebuilds the
socket and retries the whole attempt. -/
def srLoop (attempts : Nat) : List SRAttempt → Except PyErr String
  | [] => .error (.envError "Cannot contact bloomd server!")
  | t :: rest =>
    match (send attempts t.sendOutcomes).1 with
    | .error e => .error e
    | .ok _ =>
      match t.readResult with
      | .ok line => .ok line
      | .error e =>
        if isTransient e then srLoop attempts rest
        else .error (.socketError e)

/-- BloomdConnection.send_and_receive. -/
def send_and_receive (attempts : Nat) (tries : List SRAttempt) : Except PyErr String :=
  srLoop attempts (tries.take attempts)

/-! ## Response framing (pybloomd.py lines 79-134)

readblock consumes one line for the start marker (a wrong marker raises
BloomdError after that single line was consumed), then lines up to and
including the end marker.  response_block_to_dict turns the block lines
into a dictionary, splitting each line on its first space; a line without
a space makes the dict constructor raise ValueError (only 2-tuples are
accepted), and that ValueError is not a BloomdError. -/

/-- Association list lookup modeling Python dict membership and
subscription (first hit wins; the insert below keeps keys unique). -/
def alookup {α : Type} : List (String × α) → String → Option α
  | [], _ => none
  | p :: rest, k => if p.1 = k then some p.2 else alookup rest k

/-- Python dict assignment d[k] = v: replaces any previous binding. -/
def dinsert {α : Type} (d : List (String × α)) (k : String) (v : α) : List (String × α) :=
  (k, v) :: d.filter (fun p => !(p.1 == k))

/-- Helper for readblock: accumulate lines until the end marker; the
second component is the input left unconsumed. -/
def readblockAux : List Char → List String → List String → (Except PyErr (List String)) × List String
  | _, _, [] => (.error .blocked, [])
  | endMarker, acc, l :: rest =>
    if l = (⟨endMarker⟩ : String) then (.ok acc.reverse, rest)
    else readblockAux endMarker (l :: acc) rest

/-- BloomdConnection.readblock with the default markers START and END.
Returns the block lines (exclusive of the markers) or the raised error,
together with the lines left unconsumed on the connection. -/
def readblockE : List String → (Except PyErr (List String)) × List String
  | [] => (.error .blocked, [])
  | first :: rest =>
    if first = "START" then readblockAux "END".data [] rest
    else (.error (.bloomdError ("Did not get block start (START)! Got " ++ first ++ "!")), rest)

/-- The dict(tuple(l.split(" ", 1)) for l in lines) conversion: every line
must split into a key and a value; otherwise dict raises ValueError. -/
def pairsOfLines : List String → List (String × String) → Except PyErr (List (String × String))
  | [], acc => .ok acc
  | l :: rest, acc =>
    match splitOnce l with
    | some kv => pairsOfLines rest (dinsert acc kv.1 kv.2)
    | none => .error (.valueError "dictionary update sequence element has wrong length")

/-- BloomdConnection.response_block_to_dict, with the unconsumed input. -/
def response_block_to_dictE (lines : List String) : (Except PyErr (List (String × String))) × List String :=
  match readblockE lines with
  | (.ok ls, rest) => (pairsOfLines ls [], rest)
  | (.error e, rest) => (.error e, rest)

/-! ## ConnectionPool (pybloomd.py lines 158-205)

Connections are identified by their creation index.  The process identity
check is modeled as always passing (single process).  Python 2 has no
builtin named ConnectionError and the module never defines one, so the
over-capacity branch of make_connection raises NameError; likewise the
disconnect method evaluates the name chain, which is never imported, and
raises NameError before touching any connection. -/

/-- ConnectionPool state: the configured cap, the count of connections
ever created, the idle stack and the in-use set. -/
structure Pool where
  max_connections : Nat
  created : Nat
  available : List Nat
  in_use : List Nat
  deriving DecidableEq, Repr

/-- ConnectionPool.__init__: max_connections or 2 ** 31 (Python truthiness:
both None and 0 fall back to 2 ** 31). -/
def poolInit (max_connections : Option Nat) : Pool :=
  { max_connections :=
      match max_connections with
      | none => 2 ^ 31
      | some 0 => 2 ^ 31
      | some n => n
    created := 0
    available := []
    in_use := [] }

/-- ConnectionPool.make_connection: refuses to go past the cap.  The
raise names ConnectionError, which is unbound in Python 2, so the actual
exception is NameError. -/
def make_connection (p : Pool) : Except PyErr (Nat × Pool) :=
  if p.max_connections ≤ p.created then .error (.nameError "ConnectionError")
  else .ok (p.created, { p with created := p.created + 1 })

/-- ConnectionPool.get_connection: pop an idle connection from the end of
the stack (Python list.pop()), else make a fresh one; mark it in use. -/
def get_connection (p : Pool) : Except PyErr (Nat × Pool) :=
  match p.available.getLast? with
  | some c => .ok (c, { p with available := p.available.dropLast, in_use := c :: p.in_use })
  | none =>
    match make_connection p with
    | .error e => .error e
    | .ok (c, p1) => .ok (c, { p1 with in_use := c :: p1.in_use })

/-- ConnectionPool.release: moves a connection from the in-use set back to
the idle stack; set.remove raises KeyError when absent. -/
def pool_release (p : Pool) (c : Nat) : Except PyErr Pool :=
  if c ∈ p.in_use then
    .ok { p with in_use := p.in_use.erase c, available := p.available ++ [c] }
  else .error (.keyError "connection")

/-- ConnectionPool.disconnect: its first statement evaluates chain, a name
never imported by the module, so NameError is raised before any connection
is closed.  An ok value would have listed the closed connections. -/
def pool_disconnect (_p : Pool) : Except PyErr (List Nat) :=
  .error (.nameError "chain")

/-! ## BloomdClient (pybloomd.py lines 208-396)

The routing cache is an association list from filter name to the pair of
owning server and info string; pools are keyed by the server string.  The
wall clock and every server response are oracle inputs. -/

/-- The value stored per filter by list_filters(inc_server=True). -/
abbrev InfoDict := List (String × String × String)

/-- BloomdClient state.  sever_pools keeps the source attribute name. -/
structure ClientState where
  servers : List String
  timeout : Option Nat
  sever_pools : List (String × Pool)
  server_info : Option InfoDict
  info_time : Nat
  hash_keys : Bool
  deriving DecidableEq, Repr

/-- BloomdClient.__init__ (pybloomd.py lines 210-226). -/
def clientInit (servers : List String) (timeout : Option Nat) (hash_keys : Bool) :
    Except PyErr ClientState :=
  if servers.length = 0 then .error (.valueError "Must provide at least 1 server!")
  else
    .ok { servers := servers
          timeout := timeout
          sever_pools := []
          server_info := none
          info_time := 0
          hash_keys := hash_keys }

/-- Total number of connections ever created across the pools of a client. -/
def totalConnections (st : ClientState) : Nat :=
  (st.sever_pools.map (fun p => p.2.created)).sum

/-- BloomdClient._server_pool: returns the cached pool for the server, or
makes one (with no cap configured) and caches it. -/
def server_pool (st : ClientState) (server : String) : Pool × ClientState :=
  match alookup st.sever_pools server with
  | some p => (p, st)
  | none =>
    let p := poolInit none
    (p, { st with sever_pools := dinsert st.sever_pools server p })

/-- Helper for list_filters(inc_server=True): parse one response block,
attributing every entry to the given server (the Python loop variable
server holds the last element of self.servers by the time the parsing
loop runs, so that is the server every entry receives; a line without a
space fails the tuple unpacking with ValueError). -/
def parseListLines (attributed : String) : List String → InfoDict → Except PyErr InfoDict
  | [], acc => .ok acc
  | line :: rest, acc =>
    match splitOnce line with
    | none => .error (.valueError "need more than 1 value to unpack")
    | some nv => parseListLines attributed rest (dinsert acc nv.1 (attributed, nv.2))

/-- Helper for list_filters(inc_server=True): fold over the per-server
block responses, in server order. -/
def parseListBlocks (attributed : String) : List (List String) → InfoDict → Except PyErr InfoDict
  | [], acc => .ok acc
  | b :: rest, acc =>
    match parseListLines attributed b acc with
    | .error e => .error e
    | .ok acc2 => parseListBlocks attributed rest acc2

/-- BloomdClient.list_filters(inc_server=True) (pybloomd.py lines 340-370):
sends list to every server, then parses each block response.  blocks has
one entry per configured server, holding the lines of that server response
block.  Every parsed entry is attributed to the last configured server,
because the code reads the stale loop variable server. -/
def list_filters_inc (servers : List String) (blocks : List (List String)) :
    Except PyErr InfoDict :=
  parseListBlocks ((servers.getLast?).getD "") blocks []

/-- Python truthiness of the routing cache: None and the empty dict are
both falsy (not self.server_info). -/
def infoFalsy : Option InfoDict → Bool
  | none => true
  | some d => d.isEmpty

/-- Membership test filter in self.server_info (None never reaches this
test in the modeled control flow). -/
def lookupInfo (si : Option InfoDict) (k : String) : Option (String × String) :=
  match si with
  | none => none
  | some d => alookup d k

/-- The refresh condition of _get_pool line 253: no cached info, or more
than 300 seconds elapsed since the last refresh. -/
def staleOrEmpty (st : ClientState) (now : Nat) : Bool :=
  infoFalsy st.server_info || decide (300 < now - st.info_time)

/-- Bump a counter in the counts dict; a key that was never initialised
raises KeyError (counts[server] += 1 on a missing key). -/
def incrCount (d : List (String × Nat)) (k : String) : Except PyErr (List (String × Nat)) :=
  match alookup d k with
  | some n => .ok (d.map (fun p => if p.1 = k then (p.1, n + 1) else p))
  | none => .error (.keyError k)

/-- Count the cached filters per owning server. -/
def countLoop : InfoDict → List (String × Nat) → Except PyErr (List (String × Nat))
  | [], counts => .ok counts
  | e :: rest, counts =>
    match incrCount counts e.2.1 with
    | .ok c2 => countLoop rest c2
    | .error err => .error err

/-- Byte-wise lexicographic strict order on strings, as Python compares
the server strings inside the (count, server) tuples. -/
def strLtB : List Char → List Char → Bool
  | [], [] => false
  | [], _ :: _ => true
  | _ :: _, [] => false
  | a :: as, b :: bs =>
    if a.toNat < b.toNat then true
    else if b.toNat < a.toNat then false
    else strLtB as bs

/-- Order on (count, server) pairs: Python tuple comparison. -/
def pairLE (a b : Nat × String) : Bool :=
  if a.1 < b.1 then true
  else if b.1 < a.1 then false
  else !(strLtB b.2.data a.2.data)

/-- Insertion step of a stable insertion sort. -/
def insertSorted (x : Nat × String) : List (Nat × String) → List (Nat × String)
  | [] => [x]
  | y :: ys => if pairLE x y then x :: y :: ys else y :: insertSorted x ys

/-- counts.sort() on the (count, server) list. -/
def sortPairs (l : List (Nat × String)) : List (Nat × String) :=
  l.foldr insertSorted []

/-- The least-loaded placement fallback of _get_pool lines 282-293:
initialise a zero count per configured server, count cached filters per
server, sort the (count, server) pairs and take the first server.
counts[0] on an empty list raises IndexError (no configured servers). -/
def leastLoaded (servers : List String) (info : InfoDict) : Except PyErr String :=
  let counts0 := servers.foldl
    (fun d s => if (alookup d s).isSome then d else d ++ [(s, 0)]) []
  match countLoop info counts0 with
  | .error e => .error e
  | .ok counts =>
    match sortPairs (counts.map (fun p => (p.2, p.1))) with
    | [] => .error .indexError
    | p :: _ => .ok p.2

/-- The part of BloomdClient._get_pool after the initial staleness check:
consult the cache, reload once on a miss, then fail strictly, use the
explicit server, or fall back to the least-loaded server.  r counts the
completed cache refreshes so far; the returned Nat is the final count. -/
def get_pool_cached (st : ClientState) (now : Nat) (blocks2 : List (List String))
    (filt : String) (strict : Bool) (explicit_server : Option String) (r : Nat) :
    Except PyErr String × Nat × ClientState :=
  match lookupInfo st.server_info filt with
  | some sv => (.ok sv.1, r, st)
  | none =>
    match list_filters_inc st.servers blocks2 with
    | .error e => (.error e, r, st)
    | .ok info2 =>
      match alookup info2 filt with
      | some sv => (.ok sv.1, r + 1, { st with server_info := some info2, info_time := now })
      | none =>
        if strict then
          (.error (.bloomdError "Filter does not exist!"), r + 1,
            { st with server_info := some info2, info_time := now })
        else
          match explicit_server with
          | some s => (.ok s, r + 1, { st with server_info := some info2, info_time := now })
          | none =>
            match leastLoaded st.servers info2 with
            | .error e => (.error e, r + 1, { st with server_info := some info2, info_time := now })
            | .ok srv => (.ok srv, r + 1, { st with server_info := some info2, info_time := now })

/-- BloomdClient._get_pool (pybloomd.py lines 237-293).  blocks1 feeds the
staleness-triggered refresh, blocks2 the reload-on-miss refresh; now is
the value of time.time().  Returns the owning server (the pool key), the
number of completed cache refreshes, and the resulting client state. -/
def get_pool (st : ClientState) (now : Nat) (blocks1 blocks2 : List (List String))
    (filt : String) (strict : Bool) (explicit_server : Option String) :
    Except PyErr String × Nat × ClientState :=
  if staleOrEmpty st now then
    match list_filters_inc st.servers blocks1 with
    | .error e => (.error e, 0, st)
    | .ok info1 =>
      get_pool_cached { st with server_info := some info1, info_time := now }
        now blocks2 filt strict explicit_server 1
  else
    get_pool_cached st now blocks2 filt strict explicit_server 0

/-! ## BloomdClient.create_filter (pybloomd.py lines 295-333) -/

/-- A BloomdFilter handle: the pool it is bound to (keyed by server), the
filter name and the key hashing flag. -/
inductive CreateResult where
  | handle (poolServer : String) (name : String) (hash_keys : Bool)
  deriving DecidableEq, Repr

/-- Python truthiness of an optional numeric argument: None and 0 are
falsy. -/
def truthyNat : Option Nat → Bool
  | none => false
  | some n => decide (n ≠ 0)

/-- The create command line built by create_filter lines 317-323: clauses
are appended only for truthy arguments.  The probability is carried in
millionths and rendered with six decimals as %f does. -/
def buildCreateCmd (name : String) (capacity : Option Nat) (prob : Option Nat)
    (in_memory : Bool) : String :=
  let cmd := "create " ++ name
  let cmd := if truthyNat capacity then cmd ++ " capacity=" ++ natToString (capacity.getD 0) else cmd
  let cmd := if truthyNat prob then cmd ++ " prob=" ++ formatF6 (prob.getD 0) else cmd
  if in_memory then cmd ++ " in_memory=1" else cmd

/-- BloomdClient.create_filter.  The four block lists feed the up to two
cache refreshes of each of the two possible _get_pool calls; resp is the
single line the server answers to the create command.  Returns the command
line that was sent (none when nothing was sent), the outcome, the total
number of cache refreshes and the final state. -/
def create_filter (st : ClientState) (now : Nat) (b1 b2 b3 b4 : List (List String))
    (name : String) (capacity prob : Option Nat) (in_memory : Bool)
    (server : Option String) (resp : String) :
    Option String × Except PyErr CreateResult × Nat × ClientState :=
  if truthyNat prob && !truthyNat capacity then
    (none, .error (.valueError "Must provide size with probability!"), 0, st)
  else
    match get_pool st now b1 b2 name false server with
    | (.error e, r, st1) => (none, .error e, r, st1)
    | (.ok poolSrv, r, st1) =>
      let cmd := buildCreateCmd name capacity prob in_memory
      if resp = "Done" then
        (some cmd, .ok (.handle poolSrv name st1.hash_keys), r, st1)
      else if resp = "Exists" then
        match get_pool st1 now b3 b4 name true none with
        | (.ok srv2, r2, st2) => (some cmd, .ok (.handle srv2 name st2.hash_keys), r + r2, st2)
        | (.error e, r2, st2) => (some cmd, .error e, r + r2, st2)
      else (some cmd, .error (.bloomdError ("Got response: " ++ resp)), r, st1)

/-! ## BloomdFilter (pybloomd.py lines 398-511) -/

/-- A filter handle as held by callers. -/
structure FilterHandle where
  name : String
  hash_keys : Bool
  deriving DecidableEq, Repr

/-- BloomdFilter.info (pybloomd.py lines 496-500): sends the info command,
then evaluates self.conn — but BloomdFilter never sets a conn attribute,
so the attribute lookup raises AttributeError and the block response is
never read.  Returns the lines sent and the outcome. -/
def bloomd_filter_info (f : FilterHandle) : List String × Except PyErr (List (String × String)) :=
  (["info " ++ f.name], .error (.attributeError "conn"))

/-! ## BloomdPipeline (pybloomd.py lines 514-646)

The buffer holds (opcode, command line) pairs.  execute swaps the buffer
out, sends every command line in order, then reads one response per
buffered command, embedding per-command mismatches as BloomdError values;
only BloomdError is caught around the info block parse, so a ValueError
raised by the dict conversion aborts the whole batch. -/

/-- The per-command results of a pipeline execution: a boolean, a list of
booleans, an info dictionary, or an embedded BloomdError message. -/
inductive PipeResult where
  | bool (b : Bool)
  | bools (l : List Bool)
  | dict (d : List (String × String))
  | err (msg : String)
  deriving DecidableEq, Repr

/-- Client side key transformation (BloomdPipeline._get_key): the sha1
hex digest is kept abstract via hashFn. -/
def get_key (hash_keys : Bool) (hashFn : String → String) (key : String) : String :=
  if hash_keys then hashFn key else key

/-- Pipeline state: the filter name, the hashing flag and the buffer. -/
structure PipelineState where
  name : String
  hash_keys : Bool
  buf : List (String × String)
  deriving DecidableEq, Repr

/-- BloomdPipeline.add: buffers an add command and returns the pipeline. -/
def pipeline_add (p : PipelineState) (hashFn : String → String) (key : String) : PipelineState :=
  { p with buf := p.buf ++ [("add", "s " ++ p.name ++ " " ++ get_key p.hash_keys hashFn key)] }

/-- BloomdPipeline.check: buffers a check command. -/
def pipeline_check (p : PipelineState) (hashFn : String → String) (key : String) : PipelineState :=
  { p with buf := p.buf ++ [("check", "c " ++ p.name ++ " " ++ get_key p.hash_keys hashFn key)] }

/-- BloomdPipeline.info: buffers an info command. -/
def pipeline_info (p : PipelineState) : PipelineState :=
  { p with buf := p.buf ++ [("info", "info " ++ p.name)] }

/-- BloomdPipeline.merge: appends the other buffer, preserving order. -/
def pipeline_merge (p other : PipelineState) : PipelineState :=
  { p with buf := p.buf ++ other.buf }

/-- Decode one response according to the opcode contract (the read half of
execute, lines 613-644).  Returns the slot value and the unconsumed lines;
raises for an unknown opcode, an exhausted input, or a ValueError escaping
the info dict conversion (only BloomdError is caught there). -/
def decodeStep (name : String) (lines : List String) : Except PyErr (PipeResult × List String) :=
  if name = "bulk" ∨ name = "multi" then
    match lines with
    | [] => .error .blocked
    | resp :: rest =>
      if strStartsWith resp "Yes" ∨ strStartsWith resp "No" then
        .ok (.bools ((splitSpace resp).map (fun r => decide (r = "Yes"))), rest)
      else .ok (.err ("Got response: " ++ resp), rest)
  else if name = "add" ∨ name = "check" then
    match lines with
    | [] => .error .blocked
    | resp :: rest =>
      if resp = "Yes" ∨ resp = "No" then .ok (.bool (decide (resp = "Yes")), rest)
      else .ok (.err ("Got response: " ++ resp), rest)
  else if name = "drop" ∨ name = "close" ∨ name = "clear" ∨ name = "flush" then
    match lines with
    | [] => .error .blocked
    | resp :: rest =>
      if resp = "Done" then .ok (.bool true, rest)
      else .ok (.err ("Got response: " ++ resp), rest)
  else if name = "info" then
    match response_block_to_dictE lines with
    | (.ok d, rest) => .ok (.dict d, rest)
    | (.error (.bloomdError m), rest) => .ok (.err m, rest)
    | (.error e, _) => .error e
  else .error (.exception ("Unknown command! Command: " ++ name))

/-- The response reading loop of execute: one slot per buffered opcode, in
order, threading the unconsumed connection input. -/
def decodeLoop : List String → List String → Except PyErr (List PipeResult)
  | [], _ => .ok []
  | name :: names, lines =>
    match decodeStep name lines with
    | .error e => .error e
    | .ok (r, rest) =>
      match decodeLoop names rest with
      | .error e => .error e
      | .ok rs => .ok (r :: rs)

/-- The observable outcome of BloomdPipeline.execute: the command lines
sent (in order, all before any read), the result or raised error, and the
pipeline state afterwards. -/
structure ExecResult where
  sent : List String
  result : Except PyErr (List PipeResult)
  state : PipelineState
  deriving DecidableEq, Repr

/-- BloomdPipeline.execute (pybloomd.py lines 599-646): swap the buffer
out (the pipeline is immediately reusable), send every buffered command
line in order, then decode one response per command. -/
def pipeline_execute (p : PipelineState) (lines : List String) : ExecResult :=
  { sent := p.buf.map (fun c => c.2)
    result := decodeLoop (p.buf.map (fun c => c.1)) lines
    state := { p with buf := [] } }


/-! ## Lemmas about the send retry loops -/

/-- A transient-error prefix of the attempt list is consumed entirely,
re-establishing the socket once per attempt. -/
theorem sendLoop_transient_prefix : ∀ (pre l : List SendOutcome) (rc : Nat),
    (∀ o ∈ pre, isTransientOutcome o = true) →
    sendLoop (pre ++ l) rc = sendLoop l (rc + pre.length)
  | [], l, rc, _ => by simp
  | o :: pre, l, rc, h => by
    have ho := h o (by simp)
    cases o with
    | ok => simp [isTransientOutcome] at ho
    | err e =>
      have ht : isTransient e = true := ho
      have hrec := sendLoop_transient_prefix pre l (rc + 1) (fun x hx => h x (by simp [hx]))
      have harith : rc + 1 + pre.length = rc + (pre.length + 1) := by omega
      calc sendLoop ((SendOutcome.err e :: pre) ++ l) rc
          = sendLoop (pre ++ l) (rc + 1) := by simp [sendLoop, ht]
        _ = sendLoop l (rc + 1 + pre.length) := hrec
        _ = sendLoop l (rc + (SendOutcome.err e :: pre).length) := by
              rw [List.length_cons, harith]

/-- A fully transient attempt list exhausts the budget. -/
theorem sendLoop_all_transient (l : List SendOutcome) (rc : Nat)
    (h : ∀ o ∈ l, isTransientOutcome o = true) :
    sendLoop l rc = (.error (.envError "Cannot contact bloomd server!"), rc + l.length) := by
  have := sendLoop_transient_prefix l [] rc h
  simpa [sendLoop] using this

/-- Attempts whose send succeeds but whose read hits a transient error are
skipped by the send_and_receive loop. -/
theorem srLoop_transient_prefix : ∀ (pre l : List SRAttempt),
    (∀ t ∈ pre, isSRTransient 3 t = true) →
    srLoop 3 (pre ++ l) = srLoop 3 l
  | [], _, _ => rfl
  | t :: pre, l, h => by
    have ht := h t (by simp)
    unfold isSRTransient at ht
    cases hsend : (send 3 t.sendOutcomes).1 with
    | error e => rw [hsend] at ht; simp at ht
    | ok u =>
      rw [hsend] at ht
      cases hread : t.readResult with
      | ok line => rw [hread] at ht; simp at ht
      | error e =>
        rw [hread] at ht
        simp only [Bool.true_and] at ht
        have hrec := srLoop_transient_prefix pre l (fun x hx => h x (by simp [hx]))
        calc srLoop 3 ((t :: pre) ++ l)
            = srLoop 3 (pre ++ l) := by simp [srLoop, hsend, hread, ht]
          _ = srLoop 3 l := hrec

/-- Claim C2 (confirmed).  For every command sent through a connection:
a transient transport error (connection reset 104, connection refused 111,
EAGAIN 11, host unreachable 113, broken pipe 32) tears the socket down,
re-establishes it (the second component counts re-establishments) and
retries, up to the attempt budget of 3 (the default); exhausting the
budget raises the fatal EnvironmentError; a fatal transport error
propagates immediately with no further retry and no reconnection beyond
those for the preceding transient errors; and the same policy governs the
combined send-then-read operation send_and_receive. -/
theorem C2_send_retry_policy :
    (∀ outs : List SendOutcome, 3 ≤ outs.length →
      (∀ o ∈ outs, isTransientOutcome o = true) →
      send 3 outs = (.error (.envError "Cannot contact bloomd server!"), 3)) ∧
    (∀ (pre : List SendOutcome) (f : Nat), pre.length < 3 →
      (∀ o ∈ pre, isTransientOutcome o = true) → isTransient f = false →
      send 3 (pre ++ [SendOutcome.err f]) = (.error (.socketError f), pre.length)) ∧
    (∀ pre : List SendOutcome, pre.length < 3 →
      (∀ o ∈ pre, isTransientOutcome o = true) →
      send 3 (pre ++ [SendOutcome.ok]) = (.ok (), pre.length)) ∧
    (∀ tries : List SRAttempt, 3 ≤ tries.length →
      (∀ t ∈ tries, isSRTransient 3 t = true) →
      send_and_receive 3 tries = .error (.envError "Cannot contact bloomd server!")) ∧
    (∀ (pre : List SRAttempt) (t : SRAttempt) (f : Nat), pre.length < 3 →
      (∀ x ∈ pre, isSRTransient 3 x = true) →
      (send 3 t.sendOutcomes).1 = .ok () → t.readResult = .error f → isTransient f = false →
      send_and_receive 3 (pre ++ [t]) = .error (.socketError f)) ∧
    (∀ (pre : List SRAttempt) (t : SRAttempt) (line : String), pre.length < 3 →
      (∀ x ∈ pre, isSRTransient 3 x = true) →
      (send 3 t.sendOutcomes).1 = .ok () → t.readResult = .ok line →
      send_and_receive 3 (pre ++ [t]) = .ok line) := by
  refine ⟨?_, ?_, ?_, ?_, ?_, ?_⟩
  · intro outs hlen h
    have hall : ∀ o ∈ outs.take 3, isTransientOutcome o = true :=
      fun o ho => h o (List.mem_of_mem_take ho)
    have := sendLoop_all_transient (outs.take 3) 0 hall
    simp only [send, this, List.length_take, Nat.zero_add]
    congr 2
    omega
  · intro pre f hlen h hf
    have htake : (pre ++ [SendOutcome.err f]).take 3 = pre ++ [SendOutcome.err f] := by
      apply List.take_of_length_le
      simp
      omega
    simp only [send, htake, sendLoop_transient_prefix pre [SendOutcome.err f] 0 h]
    simp [sendLoop, hf]
  · intro pre hlen h
    have htake : (pre ++ [SendOutcome.ok]).take 3 = pre ++ [SendOutcome.ok] := by
      apply List.take_of_length_le
      simp
      omega
    simp only [send, htake, sendLoop_transient_prefix pre [SendOutcome.ok] 0 h]
    simp [sendLoop]
  · intro tries hlen h
    have hall : ∀ t ∈ tries.take 3, isSRTransient 3 t = true :=
      fun t ht => h t (List.mem_of_mem_take ht)
    have := srLoop_transient_prefix (tries.take 3) [] hall
    simpa [send_and_receive, srLoop] using this
  · intro pre t f hlen h hsend hread hf
    have htake : (pre ++ [t]).take 3 = pre ++ [t] := by
      apply List.take_of_length_le
      simp
      omega
    simp only [send_and_receive, htake, srLoop_transient_prefix pre [t] h]
    simp [srLoop, hsend, hread, hf]
  · intro pre t line hlen h hsend hread
    have htake : (pre ++ [t]).take 3 = pre ++ [t] := by
      apply List.take_of_length_le
      simp
      omega
    simp only [send_and_receive, htake, srLoop_transient_prefix pre [t] h]
    simp [srLoop, hsend, hread]

/-- Witness for C2 at concrete attempt lists: three transient errors in a
row exhaust the budget; a transient then a fatal errno 9 stops at once
after one reconnection; a transient then a success delivers the command;
and the analogous three shapes for send_and_receive. -/
theorem C2_send_retry_policy_witness :
    send 3 [SendOutcome.err 104, SendOutcome.err 104, SendOutcome.err 104]
      = (.error (.envError "Cannot contact bloomd server!"), 3) ∧
    send 3 [SendOutcome.err 104, SendOutcome.err 9] = (.error (.socketError 9), 1) ∧
    send 3 [SendOutcome.err 32, SendOutcome.ok] = (.ok (), 1) ∧
    send_and_receive 3 [⟨[SendOutcome.ok], .error 104⟩, ⟨[SendOutcome.ok], .error 104⟩,
        ⟨[SendOutcome.ok], .error 104⟩]
      = .error (.envError "Cannot contact bloomd server!") ∧
    send_and_receive 3 [⟨[SendOutcome.ok], .error 104⟩, ⟨[SendOutcome.ok], .error 9⟩]
      = .error (.socketError 9) ∧
    send_and_receive 3 [⟨[SendOutcome.ok], .error 32⟩, ⟨[SendOutcome.ok], .ok "Yes"⟩]
      = .ok "Yes" := by
  refine ⟨C2_send_retry_policy.1 _ (by decide) (by decide),
    C2_send_retry_policy.2.1 [SendOutcome.err 104] 9 (by decide) (by decide) (by decide),
    C2_send_retry_policy.2.2.1 [SendOutcome.err 32] (by decide) (by decide),
    C2_send_retry_policy.2.2.2.1 _ (by decide) (by decide),
    C2_send_retry_policy.2.2.2.2.1 [⟨[SendOutcome.ok], .error 104⟩] ⟨[SendOutcome.ok], .error 9⟩ 9
      (by decide) (by decide) (by decide) (by decide) (by decide),
    C2_send_retry_policy.2.2.2.2.2 [⟨[SendOutcome.ok], .error 32⟩] ⟨[SendOutcome.ok], .ok "Yes"⟩ "Yes"
      (by decide) (by decide) (by decide) (by decide)⟩

/-! ## Lemmas about pipeline execution -/

/-- When the decode loop completes, it yields exactly one slot per opcode. -/
theorem decodeLoop_length : ∀ (names lines : List String) (rs : List PipeResult),
    decodeLoop names lines = .ok rs → rs.length = names.length
  | [], lines, rs => by
    intro h
    simp only [decodeLoop] at h
    cases h
    rfl
  | n :: names, lines, rs => by
    intro h
    simp only [decodeLoop] at h
    cases hstep : decodeStep n lines with
    | error e => rw [hstep] at h; cases h
    | ok pr =>
      obtain ⟨r, rest⟩ := pr
      rw [hstep] at h
      have h2 : (match decodeLoop names rest with
          | Except.error e => (Except.error e : Except PyErr (List PipeResult))
          | Except.ok rs2 => Except.ok (r :: rs2)) = Except.ok rs := h
      cases hrec : decodeLoop names rest with
      | error e => rw [hrec] at h2; cases h2
      | ok rs2 =>
        rw [hrec] at h2
        cases h2
        have := decodeLoop_length names rest rs2 hrec
        simp [this]

/-- A block read that sees the wrong start marker consumes that one line
and raises BloomdError. -/
theorem readblockE_bad_start (first : String) (rest : List String) (h : ¬ first = "START") :
    readblockE (first :: rest)
      = (.error (.bloomdError ("Did not get block start (START)! Got " ++ first ++ "!")), rest) := by
  unfold readblockE
  exact if_neg h

/-- Claim C1 (corrected).  Pipeline.execute resets the buffer before any
network traffic, sends every buffered command line in order (the sent list
does not depend on the response lines, so all sends precede all reads),
returns one slot per buffered command whenever it returns at all, and
embeds a BloomdError value in the slot of a boolean command that answers
neither Yes nor No, of a Done command that answers something else, of a
bulk or multi command whose answer starts with neither Yes nor No, and of
an info command whose block has the wrong start marker.  (Amended from the
original claim: an info block containing a line without a space raises
ValueError instead of embedding an error, because execute catches only
BloomdError around the block parse; see the counterexample.) -/
theorem C1_execute_corrected :
    (∀ (p : PipelineState) (lines : List String),
      (pipeline_execute p lines).sent = p.buf.map (fun c => c.2) ∧
      (pipeline_execute p lines).state.buf = []) ∧
    (∀ (p : PipelineState) (lines : List String) (rs : List PipeResult),
      (pipeline_execute p lines).result = .ok rs → rs.length = p.buf.length) ∧
    (∀ (resp : String) (rest : List String), ¬(resp = "Yes" ∨ resp = "No") →
      decodeStep "add" (resp :: rest) = .ok (.err ("Got response: " ++ resp), rest) ∧
      decodeStep "check" (resp :: rest) = .ok (.err ("Got response: " ++ resp), rest)) ∧
    (∀ (resp : String) (rest : List String), ¬ resp = "Done" →
      decodeStep "drop" (resp :: rest) = .ok (.err ("Got response: " ++ resp), rest) ∧
      decodeStep "close" (resp :: rest) = .ok (.err ("Got response: " ++ resp), rest) ∧
      decodeStep "clear" (resp :: rest) = .ok (.err ("Got response: " ++ resp), rest) ∧
      decodeStep "flush" (resp :: rest) = .ok (.err ("Got response: " ++ resp), rest)) ∧
    (∀ (resp : String) (rest : List String),
      ¬(strStartsWith resp "Yes" = true ∨ strStartsWith resp "No" = true) →
      decodeStep "bulk" (resp :: rest) = .ok (.err ("Got response: " ++ resp), rest) ∧
      decodeStep "multi" (resp :: rest) = .ok (.err ("Got response: " ++ resp), rest)) ∧
    (∀ (first : String) (rest : List String), ¬ first = "START" →
      decodeStep "info" (first :: rest)
        = .ok (.err ("Did not get block start (START)! Got " ++ first ++ "!"), rest)) := by
  refine ⟨?_, ?_, ?_, ?_, ?_, ?_⟩
  · intro p lines
    exact ⟨rfl, rfl⟩
  · intro p lines rs h
    have h2 : decodeLoop (p.buf.map (fun c => c.1)) lines = .ok rs := h
    have := decodeLoop_length (p.buf.map (fun c => c.1)) lines rs h2
    simpa using this
  · intro resp rest h
    constructor
    · unfold decodeStep
      rw [if_neg (by decide), if_pos (by decide)]
      exact if_neg h
    · unfold decodeStep
      rw [if_neg (by decide), if_pos (by decide)]
      exact if_neg h
  · intro resp rest h
    refine ⟨?_, ?_, ?_, ?_⟩ <;>
      (unfold decodeStep; rw [if_neg (by decide), if_neg (by decide), if_pos (by decide)]) <;>
      exact if_neg h
  · intro resp rest h
    constructor
    · unfold decodeStep
      rw [if_pos (by decide)]
      exact if_neg h
    · unfold decodeStep
      rw [if_pos (by decide)]
      exact if_neg h
  · intro first rest h
    unfold decodeStep
    rw [if_neg (by decide), if_neg (by decide), if_neg (by decide), if_pos (by decide)]
    unfold response_block_to_dictE
    rw [readblockE_bad_start first rest h]

/-- Witness for C1 at concrete pipelines: a buffered add command is sent
verbatim and the buffer is reset; a completed batch has one slot per
command; and each mismatched response shape is embedded as an error slot. -/
theorem C1_execute_corrected_witness :
    (pipeline_execute ⟨"foo", false, [("add", "s foo k")]⟩ ["Maybe"]).sent = ["s foo k"] ∧
    (pipeline_execute ⟨"foo", false, [("add", "s foo k")]⟩ ["Maybe"]).state.buf = [] ∧
    [PipeResult.bool true].length = [("add", "s foo k")].length ∧
    decodeStep "add" ["Maybe"] = .ok (.err "Got response: Maybe", []) ∧
    decodeStep "drop" ["Nope"] = .ok (.err "Got response: Nope", []) ∧
    decodeStep "bulk" ["Maybe"] = .ok (.err "Got response: Maybe", []) ∧
    decodeStep "info" ["Huh", "x"] = .ok (.err "Did not get block start (START)! Got Huh!", ["x"]) := by
  refine ⟨?_, ?_, ?_, ?_, ?_, ?_, ?_⟩
  · exact (C1_execute_corrected.1 ⟨"foo", false, [("add", "s foo k")]⟩ ["Maybe"]).1
  · exact (C1_execute_corrected.1 ⟨"foo", false, [("add", "s foo k")]⟩ ["Maybe"]).2
  · exact C1_execute_corrected.2.1 ⟨"foo", false, [("add", "s foo k")]⟩ ["Yes"]
      [PipeResult.bool true] (by decide)
  · exact (C1_execute_corrected.2.2.1 "Maybe" [] (by decide)).1
  · exact (C1_execute_corrected.2.2.2.1 "Nope" [] (by decide)).1
  · exact (C1_execute_corrected.2.2.2.2.1 "Maybe" [] (by decide)).1
  · exact (C1_execute_corrected.2.2.2.2.2 "Huh" ["x"] (by decide)).trans (by decide)

/-- Counterexample to C1 as stated: the info block START, x, END cannot be
parsed (the line x has no space, so the dict conversion raises ValueError,
which the execute loop does not catch), yet the claim promises an embedded
error slot instead of a raise.  The whole batch aborts with ValueError. -/
theorem C1_execute_raises_counterexample :
    (pipeline_execute ⟨"foo", false, [("info", "info foo")]⟩ ["START", "x", "END"]).result
      = .error (.valueError "dictionary update sequence element has wrong length") := by decide

/-! ## Lemmas about list_filters and the routing cache -/

/-- Every entry produced by the line parsing loop carries the single
attributed server. -/
theorem parseListLines_attribution : ∀ (srv : String) (lines : List String) (acc res : InfoDict),
    (∀ e ∈ acc, e.2.1 = srv) → parseListLines srv lines acc = .ok res →
    ∀ e ∈ res, e.2.1 = srv
  | srv, [], acc, res, hacc, h => by
    simp only [parseListLines] at h
    cases h
    exact hacc
  | srv, l :: rest, acc, res, hacc, h => by
    simp only [parseListLines] at h
    cases hs : splitOnce l with
    | none => rw [hs] at h; cases h
    | some nv =>
      rw [hs] at h
      refine parseListLines_attribution srv rest _ res ?_ h
      intro e he
      rcases List.mem_cons.mp he with he1 | he2
      · rw [he1]
      · exact hacc e (List.mem_of_mem_filter he2)

/-- Every entry produced by the block folding loop carries the single
attributed server. -/
theorem parseListBlocks_attribution : ∀ (srv : String) (blocks : List (List String)) (acc res : InfoDict),
    (∀ e ∈ acc, e.2.1 = srv) → parseListBlocks srv blocks acc = .ok res →
    ∀ e ∈ res, e.2.1 = srv
  | srv, [], acc, res, hacc, h => by
    simp only [parseListBlocks] at h
    cases h
    exact hacc
  | srv, b :: rest, acc, res, hacc, h => by
    simp only [parseListBlocks] at h
    cases hb : parseListLines srv b acc with
    | error e => rw [hb] at h; cases h
    | ok acc2 =>
      rw [hb] at h
      exact parseListBlocks_attribution srv rest acc2 res
        (parseListLines_attribution srv b acc acc2 hacc hb) h

/-- Every filter that list_filters(inc_server=True) returns is attributed
to the last configured server, regardless of which server reported it. -/
theorem list_filters_inc_attribution (servers : List String) (blocks : List (List String))
    (res : InfoDict) (h : list_filters_inc servers blocks = .ok res) :
    ∀ e ∈ res, e.2.1 = (servers.getLast?).getD "" := by
  exact parseListBlocks_attribution _ blocks [] res (by simp) h

/-- Claim C3 (code_bug).  list_filters(inc_server=True) is meant to pair
each filter with the server whose list response contained it, but the
parsing loop reads the variable server, which still holds the last element
of self.servers from the connection-building loop: with servers a and b,
where only server a reports filter x, the filter is attributed to b, and
not to its actual owner a. -/
theorem C3_list_filters_last_server_bug :
    list_filters_inc ["a", "b"] [["x 1"], []] = .ok [("x", "b", "1")] ∧
    ¬ list_filters_inc ["a", "b"] [["x 1"], []] = .ok [("x", "a", "1")] := by decide

/-- After the staleness check, the lookup performs either zero or one
additional cache refresh. -/
theorem get_pool_cached_refreshes (st : ClientState) (now : Nat) (b2 : List (List String))
    (filt : String) (strict : Bool) (ex : Option String) (r : Nat) :
    (get_pool_cached st now b2 filt strict ex r).2.1 = r ∨
    (get_pool_cached st now b2 filt strict ex r).2.1 = r + 1 := by
  unfold get_pool_cached
  repeat' split
  all_goals first | (left; rfl) | (right; rfl)

/-- Claim C4 (corrected).  When the routing cache is empty or older than
300 units, a lookup that returns a server assignment performs at least one
and at most two full cache refreshes before returning, and it performs
exactly one precisely when the filter is found in the freshly refreshed
cache.  (Amended from the original claim of exactly one refresh: when the
first refresh does not contain the filter, the code reloads the cache a
second time before answering; see the counterexample.) -/
theorem C4_refresh_corrected :
    ∀ (st : ClientState) (now : Nat) (b1 b2 : List (List String)) (filt : String)
      (strict : Bool) (ex : Option String),
      staleOrEmpty st now = true →
      ((∃ s, (get_pool st now b1 b2 filt strict ex).1 = Except.ok s) →
        1 ≤ (get_pool st now b1 b2 filt strict ex).2.1 ∧
        (get_pool st now b1 b2 filt strict ex).2.1 ≤ 2) ∧
      (∀ (i1 : InfoDict) (sv : String × String),
        list_filters_inc st.servers b1 = .ok i1 → alookup i1 filt = some sv →
        (get_pool st now b1 b2 filt strict ex).1 = .ok sv.1 ∧
        (get_pool st now b1 b2 filt strict ex).2.1 = 1) := by
  intro st now b1 b2 filt strict ex hstale
  unfold get_pool
  rw [if_pos hstale]
  constructor
  · intro hok
    cases hlf : list_filters_inc st.servers b1 with
    | error e =>
      simp only [hlf] at hok
      obtain ⟨s, hs⟩ := hok
      cases hs
    | ok info1 =>
      simp only [hlf]
      rcases get_pool_cached_refreshes { st with server_info := some info1, info_time := now }
          now b2 filt strict ex 1 with h | h <;> rw [h] <;> omega
  · intro i1 sv h1 h2
    simp only [h1, get_pool_cached, lookupInfo, h2]
    constructor
    · first | rfl | trivial
    · first | rfl | trivial

/-- Witness for C4: an empty cache forces a refresh; the single server a
reports filter x, so the lookup answers a after exactly one refresh. -/
theorem C4_refresh_corrected_witness :
    (get_pool ⟨["a"], none, [], none, 0, false⟩ 1000 [["x 1"]] [[]] "x" true none).1 = .ok "a" ∧
    (get_pool ⟨["a"], none, [], none, 0, false⟩ 1000 [["x 1"]] [[]] "x" true none).2.1 = 1 := by
  have h := C4_refresh_corrected ⟨["a"], none, [], none, 0, false⟩ 1000 [["x 1"]] [[]] "x" true none
    (by decide)
  exact h.2 [("x", "a", "1")] ("a", "1") (by decide) (by decide)

/-- Counterexample to C4 as stated: with an empty cache and a filter that
no server reports, a server assignment (the explicit server b) is returned
only after TWO full cache refreshes, not exactly one. -/
theorem C4_double_refresh_counterexample :
    get_pool ⟨["a"], none, [], none, 0, false⟩ 1000 [[]] [[]] "x" false (some "b")
      = (.ok "b", 2, ⟨["a"], none, [], some [], 1000, false⟩) := by decide

/-- Claim C5 (corrected).  A strict lookup of a filter that no server
reports (both refresh oracles parse and lack the name) raises the
BloomdError Filter does not exist! after at least one completed refresh,
and never returns a pool — provided the routing cache does not already
hold a fresh entry for the name.  (Amended from the original claim: a
fresh — but outdated — cache entry short-circuits the lookup and returns
the cached pool without contacting any server; see the counterexample.) -/
theorem C5_strict_missing_corrected :
    ∀ (st : ClientState) (now : Nat) (b1 b2 : List (List String)) (filt : String)
      (ex : Option String),
      (∀ sv, lookupInfo st.server_info filt = some sv → staleOrEmpty st now = true) →
      (staleOrEmpty st now = true →
        ∃ i1, list_filters_inc st.servers b1 = .ok i1 ∧ alookup i1 filt = none) →
      (∃ i2, list_filters_inc st.servers b2 = .ok i2 ∧ alookup i2 filt = none) →
      (get_pool st now b1 b2 filt true ex).1 = .error (.bloomdError "Filter does not exist!") ∧
      1 ≤ (get_pool st now b1 b2 filt true ex).2.1 := by
  intro st now b1 b2 filt ex h1 h2 h3
  obtain ⟨i2, hi2, hm2⟩ := h3
  by_cases hst : staleOrEmpty st now = true
  · obtain ⟨i1, hi1, hm1⟩ := h2 hst
    unfold get_pool
    rw [if_pos hst]
    constructor
    · simp [hi1, get_pool_cached, lookupInfo, hm1, hi2, hm2]
    · simp [hi1, get_pool_cached, lookupInfo, hm1, hi2, hm2]
  · unfold get_pool
    rw [if_neg hst]
    cases hl : lookupInfo st.server_info filt with
    | some sv => exact absurd (h1 sv hl) hst
    | none =>
      constructor
      · simp [get_pool_cached, hl, hi2, hm2]
      · simp [get_pool_cached, hl, hi2, hm2]

/-- Witness for C5: empty cache, one server a, no server reports x, so
the strict lookup refreshes and raises Filter does not exist!. -/
theorem C5_strict_missing_corrected_witness :
    (get_pool ⟨["a"], none, [], none, 0, false⟩ 1000 [[]] [[]] "x" true none).1
      = .error (.bloomdError "Filter does not exist!") ∧
    1 ≤ (get_pool ⟨["a"], none, [], none, 0, false⟩ 1000 [[]] [[]] "x" true none).2.1 := by
  refine C5_strict_missing_corrected ⟨["a"], none, [], none, 0, false⟩ 1000 [[]] [[]] "x" none ?_ ?_ ?_
  · intro sv h
    simp [lookupInfo] at h
  · intro _
    exact ⟨[], by decide, by decide⟩
  · exact ⟨[], by decide, by decide⟩

/-- Counterexample to C5 as stated: filter x exists on no server (both
refresh oracles are empty), yet because the fresh cache still holds an
entry for x the strict lookup returns pool a with zero refreshes and no
RoutingError. -/
theorem C5_fresh_cache_counterexample :
    get_pool ⟨["a"], none, [], some [("x", "a", "i")], 1000, false⟩ 1000 [[]] [[]] "x" true none
      = (.ok "a", 0, ⟨["a"], none, [], some [("x", "a", "i")], 1000, false⟩) := by decide

/-! ## Pool, filter info, create_filter and client construction claims -/

/-- Claim C6 (code_bug).  The pool never creates more connections than
its effective cap, and an acquire at capacity with no idle connection
fails immediately without creating a connection — but the failure is a
NameError, because the raise names ConnectionError, which Python 2 does
not define and the module never imports, so no resource-exhaustion error
value is ever constructed.  (The claim is also inexact for a configured
maximum of 0, which Python truthiness replaces by 2 ** 31.) -/
theorem C6_pool_cap_bug :
    (∀ p : Pool, p.available = [] → p.max_connections ≤ p.created →
      get_connection p = .error (.nameError "ConnectionError")) ∧
    (∀ (p : Pool) (c : Nat) (q : Pool), p.created ≤ p.max_connections →
      get_connection p = .ok (c, q) →
      q.created ≤ p.max_connections ∧ q.max_connections = p.max_connections) ∧
    get_connection ⟨1, 1, [], [0]⟩ = .error (.nameError "ConnectionError") := by
  refine ⟨?_, ?_, by decide⟩
  · intro p h1 h2
    simp [get_connection, h1, make_connection, h2]
  · intro p c q hle hok
    unfold get_connection at hok
    split at hok
    · simp only [Except.ok.injEq, Prod.mk.injEq] at hok
      obtain ⟨hc, hq⟩ := hok
      subst hq
      exact ⟨hle, rfl⟩
    · split at hok
      · cases hok
      · rename_i c0 p1 heq
        simp only [Except.ok.injEq, Prod.mk.injEq] at hok
        obtain ⟨hc, hq⟩ := hok
        subst hq
        unfold make_connection at heq
        split at heq
        · cases heq
        · rename_i hcap
          simp only [Except.ok.injEq, Prod.mk.injEq] at heq
          obtain ⟨hc0, hp1⟩ := heq
          subst hp1
          constructor
          · simp
            omega
          · rfl

/-- Witness for C6: a pool capped at one connection with that connection
in use refuses a second acquire with the NameError, and a fresh pool
capped at one creates its single connection without exceeding the cap. -/
theorem C6_pool_cap_bug_witness :
    get_connection ⟨1, 1, [], [0]⟩ = .error (.nameError "ConnectionError") ∧
    (⟨1, 1, [], [0]⟩ : Pool).created ≤ 1 ∧ (⟨1, 1, [], [0]⟩ : Pool).max_connections = 1 := by
  refine ⟨C6_pool_cap_bug.1 ⟨1, 1, [], [0]⟩ rfl (by decide), ?_⟩
  exact C6_pool_cap_bug.2.1 ⟨1, 0, [], []⟩ 0 ⟨1, 1, [], [0]⟩ (by decide) (by decide)

/-- Claim C7 (code_bug).  BloomdFilter.info sends the info command but
then dereferences self.conn, an attribute BloomdFilter never sets, so it
raises AttributeError instead of reading the block; the block-to-dict
conversion it was meant to call does split each line on the first space
only (first field the key, remainder the value). -/
theorem C7_info_attribute_bug :
    bloomd_filter_info ⟨"foo", false⟩ = (["info foo"], .error (.attributeError "conn")) ∧
    response_block_to_dictE ["START", "size 100 200", "END"]
      = (.ok [("size", "100 200")], []) := by decide

/-- Claim C8 (code_bug).  ConnectionPool.disconnect is meant to close
every known connection, but its first statement evaluates chain, a name
the module never imports, so every call raises NameError and no
connection — idle or in use — is ever closed. -/
theorem C8_disconnect_chain_bug :
    (∀ p : Pool, pool_disconnect p = .error (.nameError "chain")) ∧
    (∀ (p : Pool) (closed : List Nat), ¬ pool_disconnect p = .ok closed) := by
  refine ⟨fun _ => rfl, fun p closed h => ?_⟩
  cases h

/-- Claim C9 (corrected).  create_filter rejects a nonzero probability
without a nonzero capacity with ValueError before any network activity
(the outcome is the same for every oracle); the create command carries
capacity=, prob= and in_memory=1 clauses exactly for truthy arguments; a
Done response yields a handle on the resolved pool; an Exists response
re-resolves through a strict lookup; any other response raises the
BloomdError Got response.  (Amended from the original claim: Python
truthiness makes a zero probability behave as unsupplied — it is not
rejected — and a zero capacity does not count as supplied; see the
counterexample.) -/
theorem C9_create_filter_corrected :
    (∀ (st : ClientState) (now : Nat) (b1 b2 b3 b4 : List (List String)) (name : String)
      (capacity : Option Nat) (p : Nat) (im : Bool) (server : Option String) (resp : String),
      ¬ p = 0 → (capacity = none ∨ capacity = some 0) →
      create_filter st now b1 b2 b3 b4 name capacity (some p) im server resp
        = (none, .error (.valueError "Must provide size with probability!"), 0, st)) ∧
    (∀ (name : String) (c q : Nat), ¬ c = 0 → ¬ q = 0 →
      buildCreateCmd name none none false = "create " ++ name ∧
      buildCreateCmd name (some c) none false
        = "create " ++ name ++ " capacity=" ++ natToString c ∧
      buildCreateCmd name (some c) (some q) true
        = "create " ++ name ++ " capacity=" ++ natToString c ++ " prob=" ++ formatF6 q
          ++ " in_memory=1") ∧
    (∀ (st : ClientState) (now : Nat) (b1 b2 b3 b4 : List (List String)) (name : String)
      (capacity prob : Option Nat) (im : Bool) (server : Option String) (resp : String)
      (s : String) (r : Nat) (st1 : ClientState),
      ¬ (truthyNat prob && !truthyNat capacity) = true →
      get_pool st now b1 b2 name false server = (.ok s, r, st1) →
      (resp = "Done" →
        create_filter st now b1 b2 b3 b4 name capacity prob im server resp
          = (some (buildCreateCmd name capacity prob im),
             .ok (.handle s name st1.hash_keys), r, st1)) ∧
      (¬ resp = "Done" → ¬ resp = "Exists" →
        create_filter st now b1 b2 b3 b4 name capacity prob im server resp
          = (some (buildCreateCmd name capacity prob im),
             .error (.bloomdError ("Got response: " ++ resp)), r, st1)) ∧
      (∀ (s2 : String) (r2 : Nat) (st2 : ClientState), resp = "Exists" →
        get_pool st1 now b3 b4 name true none = (.ok s2, r2, st2) →
        create_filter st now b1 b2 b3 b4 name capacity prob im server resp
          = (some (buildCreateCmd name capacity prob im),
             .ok (.handle s2 name st2.hash_keys), r + r2, st2))) := by
  refine ⟨?_, ?_, ?_⟩
  · intro st now b1 b2 b3 b4 name capacity p im server resp hp hcap
    rcases hcap with rfl | rfl <;> simp [create_filter, truthyNat, hp]
  · intro name c q hc hq
    refine ⟨?_, ?_, ?_⟩ <;> simp [buildCreateCmd, truthyNat, hc, hq]
  · intro st now b1 b2 b3 b4 name capacity prob im server resp s r st1 hguard hpool
    refine ⟨?_, ?_, ?_⟩
    · intro hd
      subst hd
      simp [create_filter, hguard, hpool]
    · intro h1 h2
      simp [create_filter, hguard, hpool, h1, h2]
    · intro s2 r2 st2 he hpool2
      subst he
      simp [create_filter, hguard, hpool, hpool2]

/-- Witness for C9: a nonzero probability without capacity is rejected
with nothing sent; the full command line renders as expected; and a
response other than Done or Exists raises the BloomdError. -/
theorem C9_create_filter_corrected_witness :
    create_filter ⟨["a"], none, [], none, 0, false⟩ 5 [[]] [[]] [[]] [[]]
        "f" none (some 10000) false none "Done"
      = (none, .error (.valueError "Must provide size with probability!"), 0,
         ⟨["a"], none, [], none, 0, false⟩) ∧
    buildCreateCmd "users" (some 1000) (some 10000) true
      = "create users capacity=1000 prob=0.010000 in_memory=1" ∧
    create_filter ⟨["a"], none, [], some [("f", "a", "i")], 1000, false⟩ 1000 [[]] [[]] [[]] [[]]
        "f" (some 5) none false none "Huh"
      = (some "create f capacity=5", .error (.bloomdError "Got response: Huh"), 0,
         ⟨["a"], none, [], some [("f", "a", "i")], 1000, false⟩) := by
  refine ⟨?_, ?_, ?_⟩
  · exact C9_create_filter_corrected.1 ⟨["a"], none, [], none, 0, false⟩ 5 [[]] [[]] [[]] [[]]
      "f" none 10000 false none "Done" (by decide) (Or.inl rfl)
  · exact ((C9_create_filter_corrected.2.1 "users" 1000 10000 (by decide) (by decide)).2.2).trans
      (by decide)
  · exact ((C9_create_filter_corrected.2.2 ⟨["a"], none, [], some [("f", "a", "i")], 1000, false⟩
      1000 [[]] [[]] [[]] [[]] "f" (some 5) none false none "Huh" "a" 0
      ⟨["a"], none, [], some [("f", "a", "i")], 1000, false⟩ (by decide) (by decide)).2.1
      (by decide) (by decide)).trans (by decide)

/-- Counterexample to C9 as stated: the probability 0.0 is supplied
without a capacity, yet create_filter does not raise the argument error —
Python truthiness treats 0.0 as absent, so the command is sent (with no
prob clause) and a handle is returned. -/
theorem C9_zero_prob_counterexample :
    create_filter ⟨["a"], none, [], some [("f", "a", "i")], 1000, false⟩ 1000 [[]] [[]] [[]] [[]]
        "f" none (some 0) false none "Done"
      = (some "create f", .ok (.handle "a" "f" false), 0,
         ⟨["a"], none, [], some [("f", "a", "i")], 1000, false⟩) := by decide

/-- Claim C10 (confirmed).  Constructing a client with an empty server
list raises ValueError for every timeout and hash_keys setting; with a
non-empty list, construction succeeds, stores the arguments, starts with
no pools and hence with zero connections created. -/
theorem C10_client_init_confirmed :
    (∀ (timeout : Option Nat) (hash_keys : Bool),
      clientInit [] timeout hash_keys = .error (.valueError "Must provide at least 1 server!")) ∧
    (∀ (servers : List String) (timeout : Option Nat) (hash_keys : Bool),
      ¬ servers = [] →
      clientInit servers timeout hash_keys
        = .ok { servers := servers, timeout := timeout, sever_pools := [],
                server_info := none, info_time := 0, hash_keys := hash_keys } ∧
      ∀ st, clientInit servers timeout hash_keys = .ok st → totalConnections st = 0) := by
  constructor
  · intro timeout hash_keys
    rfl
  · intro servers timeout hash_keys hne
    have hlen : ¬ servers.length = 0 := by simpa using hne
    constructor
    · unfold clientInit
      rw [if_neg hlen]
    · intro st h
      unfold clientInit at h
      rw [if_neg hlen] at h
      cases h
      simp [totalConnections]

/-- Witness for C10: the empty list is refused; one server yields a
client with no pools and no connections. -/
theorem C10_client_init_confirmed_witness :
    clientInit [] none false = .error (.valueError "Must provide at least 1 server!") ∧
    clientInit ["localhost:8673"] none false
      = .ok { servers := ["localhost:8673"], timeout := none, sever_pools := [],
              server_info := none, info_time := 0, hash_keys := false } ∧
    totalConnections (⟨["localhost:8673"], none, [], none, 0, false⟩ : ClientState) = 0 := by
  refine ⟨C10_client_init_confirmed.1 none false,
    (C10_client_init_confirmed.2 ["localhost:8673"] none false (by decide)).1, ?_⟩
  exact (C10_client_init_confirmed.2 ["localhost:8673"] none false (by decide)).2 _
    ((C10_client_init_confirmed.2 ["localhost:8673"] none false (by decide)).1)

end Pybloomd
